import Mathlib

/-!
Shallow embedding of the query orchestration engine of the bedrock-chatbot
repository: `src/prompt/engine.py` (query classification and enhancement) and
`src/kb/bedrock.py` (`BedrockKnowledgeBase.query` with its request building,
model-identifier fallback retries and response normalization).

Python strings are modelled as Lean `String`; `str.lower()`, `str.strip()`,
slicing and `in`-substring tests are modelled on the underlying character
lists.  The AWS provider (`bedrock_agent.retrieve_and_generate`) is modelled
as an oracle function from request parameters to an outcome; `query` also
returns the ordered list of requests it sent to the oracle so that retry
behaviour is observable.  Wall-clock fields (`response_time_ms`, metadata
`timestamp`) and logging are outside the embedding.
-/

/-- Python `needle in hay` substring test on strings. -/
def strContains (needle hay : String) : Bool :=
  (List.range (hay.data.length + 1)).any fun i => needle.data.isPrefixOf (hay.data.drop i)

/-- Python `s.startswith(pre)`. -/
def strStartsWith (pre s : String) : Bool :=
  pre.data.isPrefixOf s.data

/-- Python `s.lower()` (ASCII letters; the repository only uses ASCII). -/
def strLower (s : String) : String :=
  String.mk (s.data.map Char.toLower)

/-- Python `s.strip()`: drop leading and trailing whitespace. -/
def pyStrip (s : String) : String :=
  String.mk (((s.data.dropWhile Char.isWhitespace).reverse.dropWhile Char.isWhitespace).reverse)

/-- Python `s[:n]` on a string (slicing by code points). -/
def pyTake (n : Nat) (s : String) : String :=
  String.mk (s.data.take n)

/-- Python `s.split(':')[0]`: the part of `s` before the first colon. -/
def beforeColon (s : String) : String :=
  String.mk (s.data.takeWhile fun c => c ≠ ':')

/-- Python `s.split('/')[-1]`: the part of `s` after the last slash. -/
def lastSegment (s : String) : String :=
  String.mk ((s.data.reverse.takeWhile fun c => c ≠ '/').reverse)

/-- Python `sep.join(parts)`. -/
def joinSep (sep : String) : List String → String
  | [] => ""
  | [x] => x
  | x :: y :: xs => x ++ sep ++ joinSep sep (y :: xs)

/-- Python `l[-n:]`: the last `n` elements of a list (all of them if shorter). -/
def lastN (n : Nat) (l : List α) : List α :=
  l.drop (l.length - n)

/-- One entry of `conversation_history`: a dict with `question`/`answer`
texts (absent keys default to `""`, so a total record is an exact model). -/
structure Exchange where
  question : String
  answer : String
deriving DecidableEq, Repr

/-- The two lines appended to `recent_context` for one history item in
`PromptEngine.enhance_query` (engine.py lines 229-231). -/
def renderExchange (e : Exchange) : List String :=
  ["Previous question: " ++ e.question,
   "Previous answer: " ++ pyTake 200 e.answer ++ "..."]

/-- `PromptEngine.enhance_query` (engine.py lines 211-239). -/
def enhance_query (question : String) (history : List Exchange) : String :=
  if history.isEmpty then question
  else
    let recent := (lastN 3 history).flatMap renderExchange
    if recent.isEmpty then question
    else
      "Context from previous conversation:\n" ++ joinSep "\n" recent
        ++ "\n\n" ++ ("Current question: " ++ question)

/-- Technical keywords of `detect_query_type` (engine.py line 194). -/
def technicalKeywords : List String :=
  ["how", "implement", "configure", "setup", "technical", "specification"]

/-- Summary keywords of `detect_query_type` (engine.py line 199). -/
def summaryKeywords : List String :=
  ["summarize", "summary", "overview", "brief"]

/-- Comparison keywords of `detect_query_type` (engine.py line 204). -/
def comparisonKeywords : List String :=
  ["compare", "difference", "versus", "vs", "better"]

/-- Python `any(word in ql for word in ws)`. -/
def matchesAny (ws : List String) (ql : String) : Bool :=
  ws.any fun w => strContains w ql

/-- `PromptEngine.detect_query_type` (engine.py lines 184-209). -/
def detect_query_type (question : String) : String :=
  let ql := strLower question
  if matchesAny technicalKeywords ql then "technical"
  else if matchesAny summaryKeywords ql then "summary"
  else if matchesAny comparisonKeywords ql then "comparison"
  else "general"

/-- The static configuration read in `BedrockKnowledgeBase.__init__`
(bedrock.py lines 34-36): region, knowledge-base id and model id. -/
structure Config where
  region : String
  kb_id : String
  model_id : String
deriving DecidableEq, Repr

/-- The `orchestrationConfiguration` prompt template literal
(bedrock.py lines 150-164). -/
def orchestrationPromptTemplate : String :=
  "Review the following retrieved documents and prepare a comprehensive context to help answer the user's question. Organize the information logically and include all relevant details.\n\nRetrieved Documents:\n$search_results$\n\nUser Question:\n$query$\n\nConversation History:\n$conversation_history$\n\nOutput Format Instructions:\n$output_format_instructions$\n\nOrganized Context:"

/-- The `generationConfiguration` prompt template literal
(bedrock.py lines 169-176). -/
def generationPromptTemplate : String :=
  "Use the following pieces of context to answer the question at the end. If you don't know the answer, just say that you don't know, don't try to make up an answer.\n\nContext:\n$search_results$\n\nQuestion: $query$\n\nAnswer:"

/-- The `retrieveAndGenerateConfiguration` block: the fields of the nested
dict built by `build_retrieve_config` (bedrock.py lines 136-180). -/
structure RGConfig where
  knowledgeBaseId : String
  modelArn : String
  numberOfResults : Nat
  orchestrationTemplate : String
  generationTemplate : String
deriving DecidableEq, Repr

/-- `build_retrieve_config` (bedrock.py lines 136-180). -/
def build_retrieve_config (cfg : Config) (model_arn_value : String) : RGConfig :=
  { knowledgeBaseId := pyStrip cfg.kb_id
    modelArn := pyStrip model_arn_value
    numberOfResults := 5
    orchestrationTemplate := orchestrationPromptTemplate
    generationTemplate := generationPromptTemplate }

/-- `get_model_arn` (bedrock.py lines 183-198).  Both sub-branches of the
ARN case return `self.model_id` unchanged (they differ only in logging). -/
def get_model_arn (cfg : Config) : String :=
  if strStartsWith "arn:aws:bedrock:" cfg.model_id then
    if strContains ":inference-profile/" cfg.model_id then cfg.model_id
    else cfg.model_id
  else "arn:aws:bedrock:" ++ cfg.region ++ "::foundation-model/" ++ cfg.model_id

/-- The hardcoded known-good sibling model id (bedrock.py line 293). -/
def claudeAltModel : String := "anthropic.claude-3-5-sonnet-20240620-v1:0"

/-- Candidate (a): foundation-model ARN with the full model id
(bedrock.py line 286). -/
def foundationArnOf (cfg : Config) : String :=
  "arn:aws:bedrock:" ++ cfg.region ++ "::foundation-model/" ++ cfg.model_id

/-- Candidate (b): foundation-model ARN of the known-good sibling
(bedrock.py line 295). -/
def siblingArnOf (cfg : Config) : String :=
  "arn:aws:bedrock:" ++ cfg.region ++ "::foundation-model/" ++ claudeAltModel

/-- Candidate (c): foundation-model ARN of the model id with its trailing
version suffix stripped (bedrock.py lines 301-302). -/
def strippedArnOf (cfg : Config) : String :=
  "arn:aws:bedrock:" ++ cfg.region ++ "::foundation-model/" ++ beforeColon cfg.model_id

/-- `model_arn_attempts` (bedrock.py lines 283-304): the alternative model
identifiers proposed after a model-related validation error, in order,
skipping the currently attempted ARN and duplicates.  The nested Python
`if`s guarding each append are modelled as conjoined conditions. -/
def model_arn_attempts (cfg : Config) (current_model_arn : String) : List String :=
  let a1 := if foundationArnOf cfg ≠ current_model_arn then [foundationArnOf cfg] else []
  let a2 :=
    if strContains "claude-3-5-sonnet" (strLower cfg.model_id) = true ∧
        claudeAltModel ≠ cfg.model_id ∧
        siblingArnOf cfg ≠ current_model_arn ∧ siblingArnOf cfg ∉ a1 then
      a1 ++ [siblingArnOf cfg]
    else a1
  if strContains ":" cfg.model_id = true ∧
      strippedArnOf cfg ≠ current_model_arn ∧ strippedArnOf cfg ∉ a2 then
    a2 ++ [strippedArnOf cfg]
  else a2

/-- The full ordered candidate list (a), (b), (c) with only the family /
version-suffix applicability conditions, used to state the order in which
`model_arn_attempts` proposes candidates. -/
def orderedCandidateList (cfg : Config) : List String :=
  [foundationArnOf cfg]
    ++ (if strContains "claude-3-5-sonnet" (strLower cfg.model_id) = true ∧
          claudeAltModel ≠ cfg.model_id then [siblingArnOf cfg] else [])
    ++ (if strContains ":" cfg.model_id = true then [strippedArnOf cfg] else [])

/-- The request parameters dict passed to `retrieve_and_generate`
(bedrock.py lines 204-217): `input.text` always, the retrieval+generation
configuration block, and `sessionId` when present. -/
structure Params where
  inputText : String
  config : Option RGConfig
  sessionId : Option String
deriving DecidableEq, Repr

/-- The in-place mutation
`params['retrieveAndGenerateConfiguration']['knowledgeBaseConfiguration']['modelArn'] = alt`
performed before each retry attempt (bedrock.py line 311). -/
def setModelArn (p : Params) (arn : String) : Params :=
  { p with config := p.config.map fun c => { c with modelArn := arn } }

/-- One retrieved reference inside a provider citation (optional fields of
the response dict read at bedrock.py lines 354-365). -/
structure RetrievedRef where
  contentText : Option String
  contentType : Option String
  s3Uri : Option String
  score : Option Int
deriving DecidableEq, Repr

/-- One provider citation: a list of retrieved references. -/
structure Citation where
  retrievedReferences : List RetrievedRef
deriving DecidableEq, Repr

/-- The provider response shape consumed by `query`
(bedrock.py lines 347-369). -/
structure BResponse where
  outputText : Option String
  citations : List Citation
  sessionId : Option String
deriving DecidableEq, Repr

/-- Outcome of one call to the provider oracle: a normal response, a
`botocore` `ClientError` carrying an error code and message, or any other
exception. -/
inductive Outcome where
  | ok (resp : BResponse)
  | clientError (code message : String)
  | exn (message : String)
deriving DecidableEq, Repr

/-- Exception classes that can escape the body of the outer `try` in
`query`: a `ClientError` or a plain `Exception` carrying a message. -/
inductive PyErr where
  | clientError (code message : String)
  | exn (message : String)
deriving DecidableEq, Repr

/-- One formatted source entry (bedrock.py lines 358-365). -/
structure SourceInfo where
  content : String
  s3_uri : String
  s3_key : String
  score : Int
  type : String
deriving DecidableEq, Repr

/-- Formatting of a single retrieved reference into a source entry
(bedrock.py lines 354-366). -/
def mkSourceInfo (r : RetrievedRef) : SourceInfo :=
  { content := r.contentText.getD ""
    s3_uri := r.s3Uri.getD ""
    s3_key := match r.s3Uri with
      | some u => if u ≠ "" then lastSegment u else ""
      | none => ""
    score := r.score.getD 0
    type := r.contentType.getD "text" }

/-- The double loop flattening citations into sources
(bedrock.py lines 351-366). -/
def extractSources (cits : List Citation) : List SourceInfo :=
  cits.flatMap fun c => c.retrievedReferences.map mkSourceInfo

/-- `response.get('sessionId') or params.get('sessionId')`
(bedrock.py line 369): the provider value when truthy (present and
non-empty), else the session id that was sent in the request. -/
def sessionFallback (respSession sentSession : Option String) : Option String :=
  match respSession with
  | some s => if s ≠ "" then some s else sentSession
  | none => sentSession

/-- The dictionary returned by a successful `query`
(bedrock.py lines 371-384), without the wall-clock fields
(`response_time_ms`, metadata `timestamp`). -/
structure ResultRec where
  answer : String
  sources : List SourceInfo
  session_id : Option String
  query_type : String
  enhanced_question : Option String
  metaModel : String
  metaKbId : String
  metaSourcesCount : Nat
deriving DecidableEq, Repr

/-- Construction of the success dictionary from the provider response
(bedrock.py lines 346-384).  `p` is the params dict at return time. -/
def mkResult (cfg : Config) (question enhanced qt : String) (resp : BResponse)
    (p : Params) : ResultRec :=
  let sources := extractSources resp.citations
  { answer := resp.outputText.getD "No answer found"
    sources := sources
    session_id := sessionFallback resp.sessionId p.sessionId
    query_type := qt
    enhanced_question := if enhanced ≠ question then some enhanced else none
    metaModel := cfg.model_id
    metaKbId := cfg.kb_id
    metaSourcesCount := sources.length }

/-- One character of the session-id pattern `[0-9a-zA-Z._:-]`
(bedrock.py line 131). -/
def validSessionChar (c : Char) : Bool :=
  c.isAlphanum || c = '.' || c = '_' || c = ':' || c = '-'

/-- `re.match(r'^[0-9a-zA-Z._:-]+$', s)` (bedrock.py line 131). -/
def validSessionId (s : String) : Bool :=
  s ≠ "" && s.data.all validSessionChar

/-- The model-identifier test on a `ValidationException` message
(bedrock.py lines 268-272). -/
def isModelError (msg : String) : Bool :=
  strContains "invalid" (strLower msg) || strContains "model" (strLower msg) ||
    strContains "identifier" (strLower msg)

/-- The credential/signature error codes (bedrock.py line 392). -/
def authErrorCodes : List String :=
  ["UnrecognizedClientException", "InvalidClientTokenId", "SignatureDoesNotMatch"]

/-- The multi-line authentication remediation hint
(bedrock.py lines 393-401). -/
def authHint (code message : String) : String :=
  "AWS Authentication Error (" ++ code ++ "): " ++ message ++ "\n" ++
  "Please configure AWS credentials using one of the following methods:\n" ++
  "  1. AWS credentials file: ~/.aws/credentials\n" ++
  "  2. Environment variables: AWS_ACCESS_KEY_ID and AWS_SECRET_ACCESS_KEY\n" ++
  "  3. IAM role (if running on EC2/ECS/Lambda)\n" ++
  "  4. AWS SSO: aws sso login\n" ++
  "  5. AWS CLI: aws configure"

/-- The sequential retry loop over alternative model ARNs
(bedrock.py lines 306-320).  Each iteration mutates the shared params in
place before calling the provider (`p` is rebased each step); `sent`
accumulates the requests sent.  Returns the first successful response with
the params at that moment, or `none` when all candidates fail. -/
def retryLoop (provider : Params → Outcome) :
    Params → List String → List Params → Option (BResponse × Params) × List Params
  | _, [], sent => (none, sent)
  | p, alt :: rest, sent =>
    let p2 := setModelArn p alt
    match provider p2 with
    | .ok r => (some (r, p2), sent ++ [p2])
    | _ => retryLoop provider p2 rest (sent ++ [p2])

/-- The provider call of `query` with its exception handling and the
model-identifier retry loop (bedrock.py lines 250-340) followed by result
construction (lines 346-384).  `current` is the model ARN read back from
`params['retrieveAndGenerateConfiguration']['knowledgeBaseConfiguration']['modelArn']`
(line 275); the caller passes the value stored in `params0`'s configuration
block.  Returns the outcome together with the ordered list of requests sent
to the provider. -/
def callWithRetries (cfg : Config) (question enhanced qtFinal current : String)
    (params0 : Params) (provider : Params → Outcome) :
    Except PyErr ResultRec × List Params :=
  match provider params0 with
  | .ok resp => (.ok (mkResult cfg question enhanced qtFinal resp params0), [params0])
  | .clientError code msg =>
    if code = "ValidationException" then
      if isModelError msg then
        let attempts := model_arn_attempts cfg current
        match retryLoop provider params0 attempts [params0] with
        | (some (resp, pFinal), sent) =>
          (.ok (mkResult cfg question enhanced qtFinal resp pFinal), sent)
        | (none, sent) =>
          (.error (.exn ("AWS Error (" ++ code ++ "): " ++ msg ++ ". Tried "
            ++ toString attempts.length
            ++ " alternative model formats, all failed.")), sent)
      else (.error (.exn ("AWS Error (" ++ code ++ "): " ++ msg)), [params0])
    else (.error (.exn ("AWS Error (" ++ code ++ "): " ++ msg)), [params0])
  | .exn m => (.error (.exn m), [params0])

/-- The body of the outer `try` of `query` (bedrock.py lines 93-384):
input validation, query enhancement and classification, session-id
validation and request building, then `callWithRetries`.  The two
structural assertions on `params` (bedrock.py lines 222-229) are omitted:
the params dict is built with both required keys, so they can never
fire. -/
def queryBody (cfg : Config) (hasEngine : Bool) (question : String)
    (session_id : Option String) (history : List Exchange)
    (query_type0 : Option String) (use_advanced_prompts : Bool)
    (provider : Params → Outcome) : Except PyErr ResultRec × List Params :=
  if question = "" then (.error (.exn "Question must be a non-empty string"), [])
  else
    let q := pyStrip question
    if q = "" then (.error (.exn "Question cannot be empty or whitespace only"), [])
    else if cfg.kb_id = "" ∨ pyStrip cfg.kb_id = "" then
      (.error (.exn "Knowledge Base ID is not configured or invalid"), [])
    else if cfg.model_id = "" ∨ pyStrip cfg.model_id = "" then
      (.error (.exn "Model ID is not configured or invalid"), [])
    else
      let enhanced :=
        if use_advanced_prompts ∧ hasEngine = true ∧ history ≠ [] then
          let e0 := enhance_query q history
          let e1 := if e0 = "" then q else e0
          let e2 := pyStrip e1
          if e2 = "" then q else e2
        else q
      let qt :=
        if (query_type0 = none ∨ query_type0 = some "") ∧ use_advanced_prompts ∧
            hasEngine = true then some (detect_query_type q)
        else query_type0
      let sid :=
        match session_id with
        | some s => if s ≠ "" ∧ ¬ validSessionId s = true then none else session_id
        | none => none
      let model_arn := get_model_arn cfg
      let params0 : Params :=
        { inputText := enhanced
          config := some (build_retrieve_config cfg model_arn)
          sessionId := match sid with
            | some s => if s ≠ "" then some s else none
            | none => none }
      let qtFinal :=
        match qt with
        | some t => if t ≠ "" then t else "general"
        | none => "general"
      callWithRetries cfg q enhanced qtFinal
        (build_retrieve_config cfg model_arn).modelArn params0 provider

/-- `BedrockKnowledgeBase.query` (bedrock.py lines 69-407): the `kb_id`
guard raised before the `try` (line 86-88), the body, and the outer
exception handlers (lines 386-407), which turn a `ClientError` with a
credential/signature code into the remediation hint, any other
`ClientError` into a generic AWS error, and any other exception into a
wrapped "Failed to query knowledge base" error. -/
def query (cfg : Config) (hasEngine : Bool) (question : String)
    (session_id : Option String) (history : List Exchange)
    (query_type0 : Option String) (use_advanced_prompts : Bool)
    (provider : Params → Outcome) : Except String ResultRec × List Params :=
  if cfg.kb_id = "" then (.error "Knowledge Base ID not configured", [])
  else
    let res := queryBody cfg hasEngine question session_id history query_type0
      use_advanced_prompts provider
    (match res.1 with
      | .ok r => .ok r
      | .error (.clientError code msg) =>
        if code ∈ authErrorCodes then .error (authHint code msg)
        else .error ("AWS Error (" ++ code ++ "): " ++ msg)
      | .error (.exn m) =>
        .error ("Failed to query knowledge base: " ++ m),
     res.2)

set_option maxRecDepth 100000

deriving instance DecidableEq for Except

/-- `a` occurs as a contiguous substring of `b`. -/
def strInside (a b : String) : Prop :=
  ∃ s t, b.data = s ++ a.data ++ t

/-- `a` is a suffix of `b`. -/
def strSuffix (a b : String) : Prop :=
  ∃ pre, b.data = pre ++ a.data

/-- A concrete configuration whose model id is already a fully-qualified
foundation-model ARN (no inference-profile marker). -/
def cfgC5 : Config :=
  ⟨"eu-west-1", "KB", "arn:aws:bedrock:us-east-1::foundation-model/mymodel"⟩

/-- A concrete configuration with a plain (non-ARN) model id. -/
def cfgW5 : Config := ⟨"us-west-2", "KB", "amazon.titan-text-express-v1"⟩

/-- A concrete configuration used for the orchestration scenarios: a
`claude-3-5-sonnet` model id with a trailing version suffix. -/
def cfgA : Config := ⟨"us-east-1", "KB123", "anthropic.claude-3-5-sonnet-20241022-v2:0"⟩

/-- A provider oracle that always raises a credential error, as `boto3` does
for `UnrecognizedClientException`. -/
def authFailProvider : Params → Outcome := fun _ =>
  .clientError "UnrecognizedClientException"
    "The security token included in the request is invalid."

/-- The generic wrapped error message `query` produces for the
`UnrecognizedClientException` scenario. -/
def c1ObservedError : String :=
  "Failed to query knowledge base: AWS Error (UnrecognizedClientException): The security token included in the request is invalid."

/-- A provider oracle that accepts only the version-suffix-stripped
foundation-model ARN of `cfgA` (the second alternative candidate) and
rejects every other identifier with a model validation error. -/
def c2Provider : Params → Outcome := fun p =>
  match p.config with
  | some c =>
    if c.modelArn = strippedArnOf cfgA then
      .ok { outputText := some "Answer", citations := [], sessionId := some "sess-1" }
    else .clientError "ValidationException" "model identifier invalid"
  | none => .exn "no config"

/-- The result `query` returns in the `c2Provider` scenario. -/
def c2Result : ResultRec :=
  { answer := "Answer"
    sources := []
    session_id := some "sess-1"
    query_type := "general"
    enhanced_question := none
    metaModel := "anthropic.claude-3-5-sonnet-20241022-v2:0"
    metaKbId := "KB123"
    metaSourcesCount := 0 }

/-- A provider oracle that rejects every model identifier with the same
model validation error. -/
def allFailProvider : Params → Outcome := fun _ =>
  .clientError "ValidationException" "model identifier invalid"

/-- The error message `query` produces when all alternative identifiers
fail in the `allFailProvider` scenario. -/
def c3ObservedError : String :=
  "Failed to query knowledge base: AWS Error (ValidationException): model identifier invalid. Tried 2 alternative model formats, all failed."

/-- A provider oracle that answers successfully but returns no session id. -/
def noSessionProvider : Params → Outcome := fun _ =>
  .ok { outputText := some "A", citations := [], sessionId := none }

/-- The result `query` returns in the `noSessionProvider` scenario. -/
def c9Result : ResultRec :=
  { answer := "A"
    sources := []
    session_id := none
    query_type := "general"
    enhanced_question := none
    metaModel := "anthropic.claude-3-5-sonnet-20241022-v2:0"
    metaKbId := "KB123"
    metaSourcesCount := 0 }

/-- A provider oracle that answers successfully with a session token. -/
def withSessionProvider : Params → Outcome := fun _ =>
  .ok { outputText := some "A", citations := [], sessionId := some "tok-1" }

/-- The result `query` returns in the `withSessionProvider` scenario. -/
def c9WResult : ResultRec :=
  { answer := "A"
    sources := []
    session_id := some "tok-1"
    query_type := "general"
    enhanced_question := none
    metaModel := "anthropic.claude-3-5-sonnet-20241022-v2:0"
    metaKbId := "KB123"
    metaSourcesCount := 0 }

/-- The last request sent in the `c2Provider` scenario: the initial request
with its model ARN overwritten by the second alternative candidate. -/
def c8SampleParams : Params :=
  { inputText := "q1"
    config := some { build_retrieve_config cfgA (get_model_arn cfgA) with
      modelArn := strippedArnOf cfgA }
    sessionId := none }

theorem strInside_append_left (x a m : String) (h : strInside a m) :
    strInside a (x ++ m) := by
  obtain ⟨s, t, hst⟩ := h
  exact ⟨x.data ++ s, t, by simp [hst]⟩

theorem strInside_append_right (y a m : String) (h : strInside a m) :
    strInside a (m ++ y) := by
  obtain ⟨s, t, hst⟩ := h
  exact ⟨s, t ++ y.data, by simp [hst]⟩

theorem mem_joinSep_strInside (sep : String) :
    ∀ (l : List String) (a : String), a ∈ l → strInside a (joinSep sep l)
  | [], a, h => absurd h (List.not_mem_nil a)
  | [x], a, h => by
    rcases List.mem_singleton.mp h with rfl
    exact ⟨[], [], by simp [joinSep]⟩
  | x :: y :: xs, a, h => by
    rcases List.mem_cons.mp h with rfl | h2
    · exact ⟨[], sep.data ++ (joinSep sep (y :: xs)).data, by simp [joinSep]⟩
    · have ih := mem_joinSep_strInside sep (y :: xs) a h2
      have : strInside a (x ++ sep ++ joinSep sep (y :: xs)) :=
        strInside_append_left (x ++ sep) a _ ih
      simpa [joinSep, String.append_assoc] using this

theorem length_lastN (n : Nat) (l : List α) :
    (lastN n l).length = min n l.length := by
  simp [lastN]
  omega

theorem lastN_ne_nil {l : List α} (h : l ≠ []) (n : Nat) :
    lastN (n + 1) l ≠ [] := by
  intro hnil
  have hlen := length_lastN (n + 1) l
  rw [hnil] at hlen
  have : l.length ≠ 0 := fun h0 => h (List.eq_nil_of_length_eq_zero h0)
  simp at hlen
  omega

theorem lastN_of_length_le {l : List α} {n : Nat} (h : l.length ≤ n) :
    lastN n l = l := by
  simp [lastN, Nat.sub_eq_zero_of_le h]

theorem lastN_lastN (n : Nat) (l : List α) :
    lastN n (lastN n l) = lastN n l := by
  apply lastN_of_length_le
  rw [length_lastN]
  omega

theorem setModelArn_setModelArn (p : Params) (a b : String) :
    setModelArn (setModelArn p a) b = setModelArn p b := by
  rcases p with ⟨it, cfg, sid⟩
  rcases cfg with _ | c <;> rfl

theorem retryLoop_some_spec (provider : Params → Outcome) :
    ∀ (alts : List String) (p : Params) (sent sentF : List Params)
      (resp : BResponse) (pF : Params),
      retryLoop provider p alts sent = (some (resp, pF), sentF) →
      provider pF = Outcome.ok resp
  | [], p, sent, sentF, resp, pF => by
    intro h
    simp [retryLoop] at h
  | alt :: rest, p, sent, sentF, resp, pF => by
    intro h
    rw [retryLoop] at h
    cases hp : provider (setModelArn p alt) with
    | ok r =>
      rw [hp] at h
      simp only [Prod.mk.injEq, Option.some.injEq] at h
      obtain ⟨⟨hr, hpF⟩, _⟩ := h
      rw [← hpF, ← hr]
      exact hp
    | clientError c m =>
      rw [hp] at h
      exact retryLoop_some_spec provider rest (setModelArn p alt) _ _ _ _ h
    | exn m =>
      rw [hp] at h
      exact retryLoop_some_spec provider rest (setModelArn p alt) _ _ _ _ h

theorem retryLoop_none_of_fail (provider : Params → Outcome)
    (hfail : ∀ q r, provider q ≠ Outcome.ok r) :
    ∀ (alts : List String) (p : Params) (sent : List Params),
      (retryLoop provider p alts sent).1 = none
  | [], p, sent => by simp [retryLoop]
  | alt :: rest, p, sent => by
    rw [retryLoop]
    cases hp : provider (setModelArn p alt) with
    | ok r => exact absurd hp (hfail _ _)
    | clientError c m =>
      exact retryLoop_none_of_fail provider hfail rest (setModelArn p alt) _
    | exn m =>
      exact retryLoop_none_of_fail provider hfail rest (setModelArn p alt) _

theorem retryLoop_sent_mem (provider : Params → Outcome) :
    ∀ (alts : List String) (p : Params) (sent : List Params) (q : Params),
      q ∈ (retryLoop provider p alts sent).2 →
      q ∈ sent ∨ ∃ a ∈ alts, q = setModelArn p a
  | [], p, sent, q => by
    intro h
    simp only [retryLoop] at h
    exact Or.inl h
  | alt :: rest, p, sent, q => by
    intro h
    rw [retryLoop] at h
    cases hp : provider (setModelArn p alt) with
    | ok r =>
      rw [hp] at h
      simp only at h
      rcases List.mem_append.mp h with h1 | h2
      · exact Or.inl h1
      · exact Or.inr ⟨alt, List.mem_cons_self _ _, by simpa using h2⟩
    | clientError c m =>
      rw [hp] at h
      rcases retryLoop_sent_mem provider rest (setModelArn p alt) _ q h with h1 | ⟨a, ha, rfl⟩
      · rcases List.mem_append.mp h1 with h2 | h3
        · exact Or.inl h2
        · exact Or.inr ⟨alt, List.mem_cons_self _ _, by simpa using h3⟩
      · exact Or.inr ⟨a, List.mem_cons_of_mem _ ha, setModelArn_setModelArn ..⟩
    | exn m =>
      rw [hp] at h
      rcases retryLoop_sent_mem provider rest (setModelArn p alt) _ q h with h1 | ⟨a, ha, rfl⟩
      · rcases List.mem_append.mp h1 with h2 | h3
        · exact Or.inl h2
        · exact Or.inr ⟨alt, List.mem_cons_self _ _, by simpa using h3⟩
      · exact Or.inr ⟨a, List.mem_cons_of_mem _ ha, setModelArn_setModelArn ..⟩

theorem callWithRetries_ok_metaModel (cfg : Config)
    (question enhanced qtFinal current : String) (params0 : Params)
    (provider : Params → Outcome) (r : ResultRec)
    (h : (callWithRetries cfg question enhanced qtFinal current params0 provider).1 =
      Except.ok r) :
    r.metaModel = cfg.model_id := by
  simp only [callWithRetries] at h
  repeat' split at h
  all_goals first
    | exact Except.noConfusion h
    | (injection h with h3; rw [← h3]; rfl)

theorem queryBody_ok_metaModel (cfg : Config) (hasEngine : Bool) (question : String)
    (session_id : Option String) (history : List Exchange) (query_type0 : Option String)
    (adv : Bool) (provider : Params → Outcome) (r : ResultRec)
    (h : (queryBody cfg hasEngine question session_id history query_type0 adv provider).1 =
      Except.ok r) :
    r.metaModel = cfg.model_id := by
  simp only [queryBody] at h
  repeat' split at h
  all_goals first
    | exact Except.noConfusion h
    | exact callWithRetries_ok_metaModel _ _ _ _ _ _ _ _ h

theorem callWithRetries_ok_session (cfg : Config)
    (question enhanced qtFinal current : String) (params0 : Params)
    (provider : Params → Outcome) (r : ResultRec)
    (h : (callWithRetries cfg question enhanced qtFinal current params0 provider).1 =
      Except.ok r) :
    ∃ p resp, provider p = Outcome.ok resp ∧
      r.session_id = sessionFallback resp.sessionId p.sessionId := by
  simp only [callWithRetries] at h
  repeat' split at h
  all_goals first
    | exact Except.noConfusion h
    | skip
  case _ resp heq =>
    injection h with h3
    exact ⟨params0, resp, heq, by rw [← h3]; rfl⟩
  case _ heq2 =>
    injection h with h3
    next resp pFinal sent2 =>
      exact ⟨pFinal, resp, retryLoop_some_spec provider _ _ _ _ _ _ heq2, by rw [← h3]; rfl⟩

theorem queryBody_ok_session (cfg : Config) (hasEngine : Bool) (question : String)
    (session_id : Option String) (history : List Exchange) (query_type0 : Option String)
    (adv : Bool) (provider : Params → Outcome) (r : ResultRec)
    (h : (queryBody cfg hasEngine question session_id history query_type0 adv provider).1 =
      Except.ok r) :
    ∃ p resp, provider p = Outcome.ok resp ∧
      r.session_id = sessionFallback resp.sessionId p.sessionId := by
  simp only [queryBody] at h
  repeat' split at h
  all_goals first
    | exact Except.noConfusion h
    | exact callWithRetries_ok_session _ _ _ _ _ _ _ _ h

theorem callWithRetries_sent (cfg : Config) (question enhanced qtFinal current : String)
    (params0 : Params) (provider : Params → Outcome) (p : Params)
    (hp : p ∈ (callWithRetries cfg question enhanced qtFinal current params0 provider).2) :
    p = params0 ∨ ∃ a ∈ model_arn_attempts cfg current, p = setModelArn params0 a := by
  simp only [callWithRetries] at hp
  repeat' split at hp
  all_goals first
    | exact Or.inl (List.mem_singleton.mp hp)
    | skip
  case _ heq =>
    have := retryLoop_sent_mem provider (model_arn_attempts cfg current) params0 [params0] p
      (by rw [heq]; exact hp)
    rcases this with h1 | h2
    · exact Or.inl (List.mem_singleton.mp h1)
    · exact Or.inr h2
  case _ heq =>
    have := retryLoop_sent_mem provider (model_arn_attempts cfg current) params0 [params0] p
      (by rw [heq]; exact hp)
    rcases this with h1 | h2
    · exact Or.inl (List.mem_singleton.mp h1)
    · exact Or.inr h2

theorem callWithRetries_sent_config (cfg : Config) (question enhanced qtFinal : String)
    (params0 : Params) (provider : Params → Outcome) (p : Params)
    (hcfg : params0.config = some (build_retrieve_config cfg (get_model_arn cfg)))
    (hkb : pyStrip cfg.kb_id ≠ "")
    (hp : p ∈ (callWithRetries cfg question enhanced qtFinal
      (build_retrieve_config cfg (get_model_arn cfg)).modelArn params0 provider).2) :
    pyStrip cfg.kb_id ≠ "" ∧
    ∃ c, p.config = some c ∧ c.numberOfResults = 5 ∧
      c.knowledgeBaseId = pyStrip cfg.kb_id ∧
      c.orchestrationTemplate = orchestrationPromptTemplate ∧
      c.generationTemplate = generationPromptTemplate ∧
      (c.modelArn = pyStrip (get_model_arn cfg) ∨
        c.modelArn ∈ model_arn_attempts cfg (pyStrip (get_model_arn cfg))) := by
  rcases callWithRetries_sent _ _ _ _ _ _ _ _ hp with rfl | ⟨a, ha, rfl⟩
  · exact ⟨hkb, build_retrieve_config cfg (get_model_arn cfg), hcfg, rfl, rfl, rfl, rfl,
      Or.inl rfl⟩
  · refine ⟨hkb, { build_retrieve_config cfg (get_model_arn cfg) with modelArn := a },
      ?_, rfl, rfl, rfl, rfl, Or.inr ha⟩
    simp [setModelArn, hcfg]

theorem queryBody_sent_spec (cfg : Config) (hasEngine : Bool) (question : String)
    (session_id : Option String) (history : List Exchange) (query_type0 : Option String)
    (adv : Bool) (provider : Params → Outcome) (p : Params)
    (hp : p ∈ (queryBody cfg hasEngine question session_id history query_type0 adv provider).2) :
    pyStrip cfg.kb_id ≠ "" ∧
    ∃ c, p.config = some c ∧ c.numberOfResults = 5 ∧
      c.knowledgeBaseId = pyStrip cfg.kb_id ∧
      c.orchestrationTemplate = orchestrationPromptTemplate ∧
      c.generationTemplate = generationPromptTemplate ∧
      (c.modelArn = pyStrip (get_model_arn cfg) ∨
        c.modelArn ∈ model_arn_attempts cfg (pyStrip (get_model_arn cfg))) := by
  simp only [queryBody] at hp
  repeat' split at hp
  all_goals first
    | exact absurd hp (List.not_mem_nil _)
    | exact callWithRetries_sent_config _ _ _ _ _ _ _ rfl (by tauto) hp

theorem flatMap_renderExchange_ne_nil {l : List Exchange} (hl : l ≠ []) :
    l.flatMap renderExchange ≠ [] := by
  cases l with
  | nil => exact absurd rfl hl
  | cons e es => simp [renderExchange]

theorem enhance_query_eq (q : String) (h : List Exchange) (hne : h ≠ []) :
    enhance_query q h =
      "Context from previous conversation:\n"
        ++ joinSep "\n" ((lastN 3 h).flatMap renderExchange)
        ++ "\n\n" ++ ("Current question: " ++ q) := by
  have hl3 : lastN 3 h ≠ [] := lastN_ne_nil hne 2
  have hrec : (lastN 3 h).flatMap renderExchange ≠ [] := flatMap_renderExchange_ne_nil hl3
  simp only [enhance_query]
  rw [if_neg, if_neg]
  · simpa using hrec
  · simpa using hne

/-- C4: within one `query()` call, the alternative model identifiers proposed
after a model-related validation failure never include the identifier already
attempted, contain no duplicates, and appear in the fixed order (a) canonical
foundation-model form, (b) known-good sibling foundation-model form when the
configured id is in the alternative-bearing `claude-3-5-sonnet` family, (c)
the version-suffix-stripped foundation-model form. -/
theorem c4_candidate_invariants (cfg : Config) (current : String) :
    current ∉ model_arn_attempts cfg current ∧
    (model_arn_attempts cfg current).Nodup ∧
    (model_arn_attempts cfg current).Sublist (orderedCandidateList cfg) := by
  unfold model_arn_attempts orderedCandidateList
  split_ifs <;> simp_all
  all_goals split_ifs <;> simp_all
  all_goals aesop

/-- C5: the claim says a configured model id is returned as-is only when it
contains the inference-profile marker and is otherwise synthesized into a
foundation-model ARN.  The code returns every id starting with
`arn:aws:bedrock:` as-is, marker or not: for a foundation-model ARN without
the marker, resolution keeps it unchanged instead of synthesizing
`arn:aws:bedrock:<region>::foundation-model/<configuredModelId>`. -/
theorem c5_counterexample :
    strContains ":inference-profile/" cfgC5.model_id = false ∧
    get_model_arn cfgC5 = cfgC5.model_id ∧
    get_model_arn cfgC5 ≠
      "arn:aws:bedrock:" ++ cfgC5.region ++ "::foundation-model/" ++ cfgC5.model_id := by
  refine ⟨by decide, by decide, by decide⟩

/-- C5 (amended): a configured model id starting with the provider ARN prefix
`arn:aws:bedrock:` (with or without an inference-profile marker) is returned
as-is; any other id is synthesized verbatim, version suffix included, into
`arn:aws:bedrock:<region>::foundation-model/<configuredModelId>`. -/
theorem c5_model_arn_resolution (cfg : Config) :
    (strStartsWith "arn:aws:bedrock:" cfg.model_id = true →
      get_model_arn cfg = cfg.model_id) ∧
    (strStartsWith "arn:aws:bedrock:" cfg.model_id = false →
      get_model_arn cfg =
        "arn:aws:bedrock:" ++ cfg.region ++ "::foundation-model/" ++ cfg.model_id) := by
  unfold get_model_arn
  constructor <;> intro h <;> simp [h]

theorem c5_model_arn_resolution_witness :
    strStartsWith "arn:aws:bedrock:" cfgC5.model_id = true ∧
    get_model_arn cfgC5 = cfgC5.model_id ∧
    strStartsWith "arn:aws:bedrock:" cfgW5.model_id = false ∧
    get_model_arn cfgW5 =
      "arn:aws:bedrock:" ++ cfgW5.region ++ "::foundation-model/" ++ cfgW5.model_id :=
  ⟨by decide, (c5_model_arn_resolution cfgC5).1 (by decide),
   by decide, (c5_model_arn_resolution cfgW5).2 (by decide)⟩

/-- C6: the query-type classifier is a total deterministic pure function:
every input maps to exactly one of general/technical/summary/comparison, and
a technical keyword match always wins over summary and comparison matches. -/
theorem c6_classifier_total_precedence (q : String) :
    (detect_query_type q = "general" ∨ detect_query_type q = "technical" ∨
      detect_query_type q = "summary" ∨ detect_query_type q = "comparison") ∧
    (matchesAny technicalKeywords (strLower q) = true →
      detect_query_type q = "technical") ∧
    (matchesAny technicalKeywords (strLower q) = true ∧
      (matchesAny summaryKeywords (strLower q) = true ∨
        matchesAny comparisonKeywords (strLower q) = true) →
      detect_query_type q = "technical") := by
  simp only [detect_query_type]
  refine ⟨?_, ?_, ?_⟩
  · split_ifs <;> simp
  · intro h; simp [h]
  · rintro ⟨h, -⟩; simp [h]

theorem c6_classifier_total_precedence_witness :
    matchesAny technicalKeywords (strLower "how to summarize A vs B") = true ∧
    matchesAny summaryKeywords (strLower "how to summarize A vs B") = true ∧
    matchesAny comparisonKeywords (strLower "how to summarize A vs B") = true ∧
    detect_query_type "how to summarize A vs B" = "technical" :=
  ⟨by decide, by decide, by decide,
    (c6_classifier_total_precedence "how to summarize A vs B").2.2
      ⟨by decide, Or.inl (by decide)⟩⟩

/-- C7: for a non-empty conversation history, the enhanced question ends with
the literal current question after the marker `Current question: `, depends
only on the last 3 exchanges of the history, and renders each of those
exchanges' answers truncated to 200 characters followed by the ellipsis
marker `...`. -/
theorem c7_enhance_shape (q : String) (h : List Exchange) (hne : h ≠ []) :
    strSuffix ("Current question: " ++ q) (enhance_query q h) ∧
    enhance_query q h = enhance_query q (lastN 3 h) ∧
    ∀ e ∈ lastN 3 h,
      strInside ("Previous answer: " ++ pyTake 200 e.answer ++ "...")
        (enhance_query q h) := by
  have hl3 : lastN 3 h ≠ [] := lastN_ne_nil hne 2
  refine ⟨?_, ?_, ?_⟩
  · refine ⟨("Context from previous conversation:\n"
      ++ joinSep "\n" ((lastN 3 h).flatMap renderExchange) ++ "\n\n").data, ?_⟩
    rw [enhance_query_eq q h hne]
    simp [List.append_assoc]
  · rw [enhance_query_eq q h hne, enhance_query_eq q (lastN 3 h) hl3, lastN_lastN]
  · intro e he
    have hmem : ("Previous answer: " ++ pyTake 200 e.answer ++ "...") ∈
        (lastN 3 h).flatMap renderExchange :=
      List.mem_flatMap.mpr ⟨e, he, by simp [renderExchange]⟩
    have hj := mem_joinSep_strInside "\n" _ _ hmem
    rw [enhance_query_eq q h hne]
    exact strInside_append_right _ _ _ (strInside_append_right _ _ _
      (strInside_append_left _ _ _ hj))

theorem c7_enhance_shape_witness :
    ([⟨"q1", "a1"⟩] : List Exchange) ≠ [] ∧
    (strSuffix ("Current question: " ++ "Q2") (enhance_query "Q2" [⟨"q1", "a1"⟩]) ∧
      enhance_query "Q2" [⟨"q1", "a1"⟩] = enhance_query "Q2" (lastN 3 [⟨"q1", "a1"⟩]) ∧
      ∀ e ∈ lastN 3 ([⟨"q1", "a1"⟩] : List Exchange),
        strInside ("Previous answer: " ++ pyTake 200 e.answer ++ "...")
          (enhance_query "Q2" [⟨"q1", "a1"⟩])) :=
  ⟨by decide, c7_enhance_shape "Q2" [⟨"q1", "a1"⟩] (by decide)⟩

/-- C10: keyword matching is raw substring containment, not word-boundary
matching: any question whose lowercase contains `how`, even inside another
word such as `Show`, classifies as technical; any question containing `vs`
inside another word classifies as comparison unless a technical or summary
keyword also matches. -/
theorem c10_raw_substring_matching (q : String) :
    (strContains "how" (strLower q) = true → detect_query_type q = "technical") ∧
    (strContains "vs" (strLower q) = true →
      matchesAny technicalKeywords (strLower q) = false →
      matchesAny summaryKeywords (strLower q) = false →
      detect_query_type q = "comparison") := by
  constructor
  · intro h
    have ht : matchesAny technicalKeywords (strLower q) = true := by
      simp [matchesAny, technicalKeywords, List.any_cons, List.any_nil, h]
    simp only [detect_query_type]
    simp [ht]
  · intro hv ht hs
    have hc : matchesAny comparisonKeywords (strLower q) = true := by
      simp [matchesAny, comparisonKeywords, List.any_cons, List.any_nil, hv]
    simp only [detect_query_type]
    simp [ht, hs, hc]

theorem c10_raw_substring_matching_witness :
    detect_query_type "Show me the results" = "technical" ∧
    detect_query_type "travsty" = "comparison" :=
  ⟨(c10_raw_substring_matching "Show me the results").1 (by decide),
    (c10_raw_substring_matching "travsty").2 (by decide) (by decide) (by decide)⟩

theorem callWithRetries_all_fail (cfg : Config)
    (question enhanced qtFinal current : String) (params0 : Params)
    (provider : Params → Outcome) (msg : String)
    (hprov : ∀ p, provider p = Outcome.clientError "ValidationException" msg)
    (hme : isModelError msg = true) :
    (callWithRetries cfg question enhanced qtFinal current params0 provider).1 =
      Except.error (.exn ("AWS Error (" ++ "ValidationException" ++ "): " ++ msg
        ++ ". Tried " ++ toString (model_arn_attempts cfg current).length
        ++ " alternative model formats, all failed.")) := by
  have hfail : ∀ q r, provider q ≠ Outcome.ok r := by
    intro q r hc
    rw [hprov q] at hc
    exact Outcome.noConfusion hc
  simp only [callWithRetries, hprov params0]
  rw [if_pos trivial, if_pos hme]
  rcases hr : retryLoop provider params0 (model_arn_attempts cfg current) [params0]
    with ⟨res, sentF⟩
  have hnone := retryLoop_none_of_fail provider hfail (model_arn_attempts cfg current)
    params0 [params0]
  rw [hr] at hnone
  simp at hnone
  subst hnone
  rfl

theorem queryBody_all_fail (cfg : Config) (hasEngine : Bool) (question : String)
    (session_id : Option String) (history : List Exchange) (query_type0 : Option String)
    (adv : Bool) (provider : Params → Outcome) (msg : String)
    (hq : question ≠ "") (hq2 : pyStrip question ≠ "")
    (hkb : cfg.kb_id ≠ "") (hkb2 : pyStrip cfg.kb_id ≠ "")
    (hm : cfg.model_id ≠ "") (hm2 : pyStrip cfg.model_id ≠ "")
    (hprov : ∀ p, provider p = Outcome.clientError "ValidationException" msg)
    (hme : isModelError msg = true) :
    (queryBody cfg hasEngine question session_id history query_type0 adv provider).1 =
      Except.error (.exn ("AWS Error (" ++ "ValidationException" ++ "): " ++ msg
        ++ ". Tried " ++ toString (model_arn_attempts cfg
            (build_retrieve_config cfg (get_model_arn cfg)).modelArn).length
        ++ " alternative model formats, all failed.")) := by
  simp only [queryBody]
  rw [if_neg hq, if_neg hq2, if_neg (by tauto : ¬(cfg.kb_id = "" ∨ pyStrip cfg.kb_id = "")),
    if_neg (by tauto : ¬(cfg.model_id = "" ∨ pyStrip cfg.model_id = ""))]
  exact callWithRetries_all_fail cfg _ _ _ _ _ provider msg hprov hme

/-- C1: when the first provider call raises the credential error
`UnrecognizedClientException`, `query` fails immediately with zero
model-identifier retry attempts (a single request is sent), but it does NOT
surface the multi-line credential remediation hint: the inner exception
handler re-raises the `ClientError` as a plain exception, so the dedicated
authentication handler (bedrock.py lines 386-404) is unreachable and the
caller sees only the generic wrapped message. -/
theorem c1_auth_error_no_hint :
    (query cfgA true "What is the policy?" none [] none true authFailProvider).1 =
      Except.error c1ObservedError ∧
    (query cfgA true "What is the policy?" none [] none true authFailProvider).2.length = 1 ∧
    strContains "Please configure AWS credentials" c1ObservedError = false ∧
    c1ObservedError ≠ authHint "UnrecognizedClientException"
      "The security token included in the request is invalid." := by
  refine ⟨by decide, by decide, by decide, by decide⟩

/-- C2: counterexample.  With the configured model id rejected and the second
alternative candidate (the version-suffix-stripped ARN) accepted, `query`
succeeds after three requests, yet the result metadata records the originally
configured model id, not the identifier actually used for the successful
attempt. -/
theorem c2_counterexample :
    (query cfgA true "q1" none [] none true c2Provider).1 = Except.ok c2Result ∧
    (query cfgA true "q1" none [] none true c2Provider).2.map
        (fun p => (p.config.map RGConfig.modelArn).getD "") =
      [pyStrip (get_model_arn cfgA), siblingArnOf cfgA, strippedArnOf cfgA] ∧
    c2Result.metaModel = cfgA.model_id ∧
    c2Result.metaModel ≠ strippedArnOf cfgA := by
  refine ⟨by decide, by decide, by decide, by decide⟩

/-- C2 (amended): whenever `query` returns successfully — including when
success came from a retry with an alternative model identifier — the result
metadata records the originally configured model id. -/
theorem c2_metadata_configured_model (cfg : Config) (hasEngine : Bool) (question : String)
    (session_id : Option String) (history : List Exchange) (query_type0 : Option String)
    (adv : Bool) (provider : Params → Outcome) (r : ResultRec)
    (h : (query cfg hasEngine question session_id history query_type0 adv provider).1 =
      Except.ok r) :
    r.metaModel = cfg.model_id := by
  simp only [query] at h
  split at h
  · exact Except.noConfusion h
  · split at h
    all_goals first
      | (split at h <;> exact Except.noConfusion h)
      | exact Except.noConfusion h
      | skip
    next heq =>
      injection h with h3
      rw [← h3]
      exact queryBody_ok_metaModel _ _ _ _ _ _ _ _ _ heq

theorem c2_metadata_configured_model_witness :
    c2Result.metaModel = cfgA.model_id :=
  c2_metadata_configured_model cfgA true "q1" none [] none true c2Provider c2Result
    (by decide)

/-- C3: counterexample.  When the model validation error persists through all
alternative identifiers, the surfaced error preserves the original provider
code and message but reports only the COUNT of alternatives tried; the list
of attempted identifiers (here the sibling ARN, which was tried) does not
appear in the message — it is only logged. -/
theorem c3_counterexample :
    (query cfgA true "q1" none [] none true allFailProvider).1 =
      Except.error c3ObservedError ∧
    model_arn_attempts cfgA (pyStrip (get_model_arn cfgA)) =
      [siblingArnOf cfgA, strippedArnOf cfgA] ∧
    strContains (siblingArnOf cfgA) c3ObservedError = false ∧
    strContains (strippedArnOf cfgA) c3ObservedError = false := by
  refine ⟨by decide, by decide, by decide, by decide⟩

/-- C3 (amended): when a model-identifier `ValidationException` occurs and
every alternative identifier also fails, the surfaced error preserves the
original provider error code and message and is augmented with the number of
alternative identifiers tried (the identifier list itself is only logged). -/
theorem c3_exhaustion_error (cfg : Config) (hasEngine : Bool) (question : String)
    (session_id : Option String) (history : List Exchange) (query_type0 : Option String)
    (adv : Bool) (provider : Params → Outcome) (msg : String)
    (hq : question ≠ "") (hq2 : pyStrip question ≠ "")
    (hkb : cfg.kb_id ≠ "") (hkb2 : pyStrip cfg.kb_id ≠ "")
    (hm : cfg.model_id ≠ "") (hm2 : pyStrip cfg.model_id ≠ "")
    (hprov : ∀ p, provider p = Outcome.clientError "ValidationException" msg)
    (hme : isModelError msg = true) :
    (query cfg hasEngine question session_id history query_type0 adv provider).1 =
      Except.error ("Failed to query knowledge base: " ++
        ("AWS Error (" ++ "ValidationException" ++ "): " ++ msg
          ++ ". Tried " ++ toString (model_arn_attempts cfg
              (build_retrieve_config cfg (get_model_arn cfg)).modelArn).length
          ++ " alternative model formats, all failed.")) := by
  simp only [query]
  rw [if_neg hkb]
  rw [queryBody_all_fail cfg hasEngine question session_id history query_type0 adv
    provider msg hq hq2 hkb hkb2 hm hm2 hprov hme]

theorem c3_exhaustion_error_witness :
    (query cfgA true "q1" none [] none true allFailProvider).1 =
      Except.error ("Failed to query knowledge base: " ++
        ("AWS Error (" ++ "ValidationException" ++ "): " ++ "model identifier invalid"
          ++ ". Tried " ++ toString (model_arn_attempts cfgA
              (build_retrieve_config cfgA (get_model_arn cfgA)).modelArn).length
          ++ " alternative model formats, all failed.")) :=
  c3_exhaustion_error cfgA true "q1" none [] none true allFailProvider
    "model identifier invalid" (by decide) (by decide) (by decide) (by decide)
    (by decide) (by decide) (fun _ => rfl) (by decide)

/-- C8: every request `query` sends to the provider — the initial one and
every retry within the same call, with or without a session id — carries a
populated retrieval+generation configuration block: the stripped knowledge
base id (non-empty), `numberOfResults = 5`, both non-empty prompt templates,
and a model identifier that is either the resolved ARN or one of the
alternative candidates. -/
theorem c8_request_block (cfg : Config) (hasEngine : Bool) (question : String)
    (session_id : Option String) (history : List Exchange) (query_type0 : Option String)
    (adv : Bool) (provider : Params → Outcome) (p : Params)
    (hp : p ∈ (query cfg hasEngine question session_id history query_type0 adv provider).2) :
    orchestrationPromptTemplate ≠ "" ∧ generationPromptTemplate ≠ "" ∧
    ∃ c, p.config = some c ∧ c.numberOfResults = 5 ∧
      c.knowledgeBaseId = pyStrip cfg.kb_id ∧ c.knowledgeBaseId ≠ "" ∧
      c.orchestrationTemplate = orchestrationPromptTemplate ∧
      c.generationTemplate = generationPromptTemplate ∧
      (c.modelArn = pyStrip (get_model_arn cfg) ∨
        c.modelArn ∈ model_arn_attempts cfg (pyStrip (get_model_arn cfg))) := by
  refine ⟨by decide, by decide, ?_⟩
  have hq : p ∈ (queryBody cfg hasEngine question session_id history query_type0
      adv provider).2 := by
    simp only [query] at hp
    split at hp
    · exact absurd hp (List.not_mem_nil _)
    · exact hp
  obtain ⟨hkbne, c, hc1, hc2, hc3, hc4, hc5, hc6⟩ :=
    queryBody_sent_spec _ _ _ _ _ _ _ _ _ hq
  exact ⟨c, hc1, hc2, hc3, by rw [hc3]; exact hkbne, hc4, hc5, hc6⟩

theorem c8_request_block_witness :
    c8SampleParams ∈ (query cfgA true "q1" none [] none true c2Provider).2 ∧
    (orchestrationPromptTemplate ≠ "" ∧ generationPromptTemplate ≠ "" ∧
      ∃ c, c8SampleParams.config = some c ∧ c.numberOfResults = 5 ∧
        c.knowledgeBaseId = pyStrip cfgA.kb_id ∧ c.knowledgeBaseId ≠ "" ∧
        c.orchestrationTemplate = orchestrationPromptTemplate ∧
        c.generationTemplate = generationPromptTemplate ∧
        (c.modelArn = pyStrip (get_model_arn cfgA) ∨
          c.modelArn ∈ model_arn_attempts cfgA (pyStrip (get_model_arn cfgA)))) :=
  ⟨by decide,
    c8_request_block cfgA true "q1" none [] none true c2Provider c8SampleParams (by decide)⟩

/-- C9: counterexample.  A successful call with no input session id whose
provider response carries no session id returns `session_id = none`: the
result session id is not guaranteed to be a non-empty token. -/
theorem c9_counterexample :
    (query cfgA true "q1" none [] none true noSessionProvider).1 = Except.ok c9Result ∧
    c9Result.session_id = none := by
  refine ⟨by decide, by decide⟩

/-- C9 (amended): for every successful `query` the result session id equals
the provider-returned value when that value is a non-empty string, and
otherwise falls back to the session id that was sent in the request; in
particular it is non-empty whenever the provider returns a non-empty
session token. -/
theorem c9_session_fallback (cfg : Config) (hasEngine : Bool) (question : String)
    (session_id : Option String) (history : List Exchange) (query_type0 : Option String)
    (adv : Bool) (provider : Params → Outcome) (r : ResultRec)
    (h : (query cfg hasEngine question session_id history query_type0 adv provider).1 =
      Except.ok r) :
    ∃ p resp, provider p = Outcome.ok resp ∧
      r.session_id = sessionFallback resp.sessionId p.sessionId := by
  simp only [query] at h
  split at h
  · exact Except.noConfusion h
  · split at h
    all_goals first
      | (split at h <;> exact Except.noConfusion h)
      | exact Except.noConfusion h
      | skip
    next heq =>
      injection h with h3
      rw [← h3]
      exact queryBody_ok_session _ _ _ _ _ _ _ _ _ heq

theorem c9_session_fallback_witness :
    ∃ p resp, withSessionProvider p = Outcome.ok resp ∧
      c9WResult.session_id = sessionFallback resp.sessionId p.sessionId :=
  c9_session_fallback cfgA true "q1" none [] none true withSessionProvider c9WResult
    (by decide)
